import Mathlib

/-!
Shallow embedding of the whatsapp-cloud-API-dashboard repository.

Timestamps are modelled as integers (milliseconds since the Unix epoch);
the source stores ISO-8601 strings, whose ordering and arithmetic agree
with the integer model.  JavaScript truthiness of the optional string and
boolean fields that the routes test with `!x` or `x || d` is modelled by
the `jsOr` / `jsStrTruthy` / `jsTruthyB` helpers below (undefined and null
collapse to `Option.none`; the empty string is falsy).
-/

namespace WADash

/-- JS `x || d` for an optional string: undefined, null and the empty
string are falsy and yield the default. -/
def jsOr (x : Option String) (d : String) : String :=
  match x with
  | some s => if s = "" then d else s
  | none => d

/-- JS truthiness of an optional string (`!x` test in the routes). -/
def jsStrTruthy (x : Option String) : Bool :=
  match x with
  | some s => s ≠ ""
  | none => false

/-- JS truthiness of an optional boolean field (`x || false`). -/
def jsTruthyB (x : Option Bool) : Bool :=
  match x with
  | some true => true
  | _ => false

/-- JS strict equality `a === b` between a query parameter (null when
absent) and an environment variable (undefined when absent): two present
strings compare by value, and any comparison involving null/undefined is
false (in particular `null === undefined` is false). -/
def jsStrictEq (a b : Option String) : Bool :=
  match a, b with
  | some x, some y => x == y
  | _, _ => false

/-- ASCII whitespace, modelling the `\s` character class used by the
phone-number cleaning regexes. -/
def isJsSpace (c : Char) : Bool :=
  c = ' ' || c = '\t' || c = '\n' || c = '\r' || c = '\x0b' || c = '\x0c'

/-- The phone-number normalisation used by the provider client and the
check-human route: strip every '+' and every whitespace character
(`.replace` with the global regexes `\+` and `\s`; the extra `.trim()` in
the check-human route is a no-op after all whitespace is removed). -/
def cleanPhone (s : String) : String :=
  String.mk (s.data.filter (fun c => c ≠ '+' && !(isJsSpace c)))

/-- Drop the first occurrence of the pattern from the character list:
the semantics of JS `String.replace(pat, "")` with a string pattern. -/
def dropFirstOccur (pat : List Char) : List Char → List Char
  | [] => []
  | c :: cs =>
    if pat.isPrefixOf (c :: cs) then (c :: cs).drop pat.length
    else c :: dropFirstOccur pat cs

/-- JS `s.replace(pat, "")` with a plain string pattern: removes only the
first occurrence. -/
def replaceFirst (s pat : String) : String :=
  String.mk (dropFirstOccur pat.data s.data)

/-! ## Data model: the `messages` and `webhook_logs` tables

The row shape follows the `WhatsAppMessage` interface of `lib/whatsapp.ts`
and the `messages` table of `supabase-migration.sql` (which declares
`message_id TEXT UNIQUE NOT NULL`). -/

structure MessageRow where
  message_id : String
  phone_number : String
  from_number : String
  to_number : String
  body : Option String
  direction : String
  status : Option String
  timestamp : Int
  message_type : String
  media_url : Option String
  media_mime_type : Option String
  caption : Option String
  is_ai_response : Bool
deriving Repr, DecidableEq

/-- The incoming provider payload, as destructured by the webhook route:
`body.entry?.[0]?.changes?.[0]?.value?.messages` etc.  An absent
`messages` / `statuses` field behaves like the empty list in the route's
guards. -/
structure WebhookMessage where
  id : String
  /-- The message's `from` field (sender phone number). -/
  sender : String
  /-- Result of `parseInt(message.timestamp)` (seconds since epoch);
  `none` models NaN, on which `new Date(NaN).toISOString()` throws. -/
  timestamp : Option Int
  ty : String
  textBody : Option String
  mediaId : Option String
  mediaMime : Option String
  mediaCaption : Option String
deriving Repr, DecidableEq

structure WebhookPayload where
  messages : List WebhookMessage
  /-- Status updates: pairs of (`status.id`, `status.status`). -/
  statuses : List (String × String)
  /-- The `entry[0].changes[0].field` tag, logged by the route. -/
  field : Option String
  /-- The `value.metadata.phone_number_id` field of the payload. -/
  phoneNumberId : Option String
deriving Repr, DecidableEq

inductive LogPayload where
  | body (p : WebhookPayload)
  | errObj (msg : String)
deriving Repr, DecidableEq

structure LogRow where
  event_type : String
  payload : LogPayload
  processed : Bool
  error : Option String
deriving Repr, DecidableEq

structure DBState where
  messages : List MessageRow
  webhook_logs : List LogRow
deriving Repr, DecidableEq

/-- Insert into the `messages` table under the `message_id TEXT UNIQUE`
constraint of the migration: a row whose `message_id` already exists is
rejected (supabase-js reports this as `error` with `data = null`, it does
not throw), otherwise the row is appended and returned. -/
def dbInsertMessage (tbl : List MessageRow) (row : MessageRow) :
    List MessageRow × Option MessageRow :=
  if tbl.any (fun r => r.message_id == row.message_id) then (tbl, none)
  else (tbl ++ [row], some row)

/-- Model of `UPDATE messages SET status = newStatus WHERE message_id = id`. -/
def updateStatus (tbl : List MessageRow) (id newStatus : String) :
    List MessageRow :=
  tbl.map (fun r =>
    if r.message_id == id then { r with status := some newStatus } else r)

/-- Number of rows carrying a given `message_id`. -/
def countId (tbl : List MessageRow) (mid : String) : Nat :=
  (tbl.filter (fun r => r.message_id == mid)).length

/-! ## Provider client: `sendWhatsAppMessage` in `lib/whatsapp.ts`

The provider HTTP exchange is modelled by passing the provider's response
(`response.ok`, the parsed JSON body's `error?.message` and
`messages[0]?.id`) as an input; `now` is the current time in milliseconds,
used for `Date.now()` and `new Date().toISOString()`.  Exceptions thrown
by the function are modelled with `Except`. -/

structure SendConfig where
  /-- Value of `process.env.WHATSAPP_PHONE_NUMBER_ID` (undefined when absent). -/
  phoneNumberId : Option String
  /-- Value of `process.env.WHATSAPP_ACCESS_TOKEN`. -/
  accessToken : Option String
deriving Repr, DecidableEq

structure ProviderResponse where
  /-- Whether `response.ok` held, i.e. the HTTP status was in the 2xx range. -/
  ok : Bool
  /-- The `error?.message` field of the parsed JSON body. -/
  errorMessage : Option String
  /-- The `messages?.[0]?.id` field of the parsed JSON body. -/
  firstMessageId : Option String
deriving Repr, DecidableEq

def sendWhatsAppMessage (cfg : SendConfig) (resp : ProviderResponse)
    (now : Int) (st : DBState) (toNum bodyText : String)
    (isAiResponse : Bool) : Except String (DBState × ProviderResponse) :=
  if !(jsStrTruthy cfg.phoneNumberId) || !(jsStrTruthy cfg.accessToken) then
    .error "WhatsApp credentials not configured"
  else
    let cleanTo := cleanPhone toNum
    let data := resp
    if !data.ok then
      .error (jsOr data.errorMessage "Failed to send message")
    else
      let messageId := jsOr data.firstMessageId ("msg_" ++ toString now)
      let fromNumber := cfg.phoneNumberId.getD ""
      let row : MessageRow :=
        { message_id := messageId
          phone_number := cleanTo
          from_number := fromNumber
          to_number := cleanTo
          body := some bodyText
          direction := "outbound"
          status := some "sent"
          timestamp := now
          message_type := "text"
          media_url := none
          media_mime_type := none
          caption := none
          is_ai_response := isAiResponse }
      let ins := dbInsertMessage st.messages row
      .ok ({ st with messages := ins.1 }, data)

/-! ## Send route: `app/api/messages/send/route.ts` `POST` -/

structure SendRequestBody where
  /-- The `to` field of the request body. -/
  toField : Option String
  /-- The `body` field of the request body. -/
  bodyField : Option String
  /-- The optional `isAiResponse` field; `none` models the field being
  absent (or null), which is falsy like `false` itself. -/
  isAiResponse : Option Bool
deriving Repr, DecidableEq

structure SendRouteResponse where
  status : Nat
  error : Option String
  success : Bool
deriving Repr, DecidableEq

def sendRoutePost (cfg : SendConfig) (resp : ProviderResponse) (now : Int)
    (st : DBState) (req : Except String SendRequestBody) :
    DBState × SendRouteResponse :=
  match req with
  | .error e =>
    (st, { status := 500, error := some e, success := false })
  | .ok b =>
    if !(jsStrTruthy b.toField) || !(jsStrTruthy b.bodyField) then
      (st, { status := 400,
             error := some "Missing required fields: to, body",
             success := false })
    else
      match sendWhatsAppMessage cfg resp now st (b.toField.getD "")
          (b.bodyField.getD "") (jsTruthyB b.isAiResponse) with
      | .error msg =>
        (st, { status := 500, error := some msg, success := false })
      | .ok (st1, _data) =>
        (st1, { status := 200, error := none, success := true })

/-! ## Webhook receiver: `app/api/webhook/route.ts` -/

/-- Query parameters of the verification request
(`searchParams.get` returns null, i.e. `none`, when absent). -/
structure VerifyQuery where
  mode : Option String
  token : Option String
  challenge : Option String
deriving Repr, DecidableEq

structure VerifyResponse where
  status : Nat
  /-- Response body; `new NextResponse(challenge)` with a null challenge
  produces an empty body, modelled by `none`. -/
  body : Option String
deriving Repr, DecidableEq

/-- Handler of `GET /api/webhook` (verification handshake).  `cfgToken` is
`process.env.WEBHOOK_VERIFY_TOKEN`.  The handler reads only the query
string, so the database state is passed through unchanged. -/
def webhookGet (cfgToken : Option String) (q : VerifyQuery)
    (st : DBState) : DBState × VerifyResponse :=
  if q.mode == some "subscribe" && jsStrictEq q.token cfgToken then
    (st, { status := 200, body := q.challenge })
  else
    (st, { status := 403, body := some "Forbidden" })

/-- Content extraction of `storeInboundMessage`: the switch on
`message.type` producing (body, media_url, media_mime_type, caption). -/
def extractContent (m : WebhookMessage) :
    String × Option String × Option String × Option String :=
  match m.ty with
  | "text" => (jsOr m.textBody "", none, none, none)
  | "image" =>
    (jsOr m.mediaCaption "[Image]", m.mediaId, m.mediaMime, m.mediaCaption)
  | "video" =>
    (jsOr m.mediaCaption "[Video]", m.mediaId, m.mediaMime, m.mediaCaption)
  | "audio" => ("[Audio]", m.mediaId, m.mediaMime, none)
  | "document" =>
    (jsOr m.mediaCaption "[Document]", m.mediaId, m.mediaMime, m.mediaCaption)
  | ty => ("[" ++ ty ++ "]", none, none, none)

/-- Model of `storeInboundMessage` in `lib/whatsapp.ts`.  Returns the stored row
(or `none` when the payload has no message, or when the unique-constraint
rejection makes `data?.[0]` null — the supabase error object is not
checked by the source).  A NaN timestamp makes
`new Date(NaN).toISOString()` throw, modelled by `Except.error`. -/
def storeInboundMessage (st : DBState) (payload : WebhookPayload) :
    Except String (DBState × Option MessageRow) :=
  match payload.messages.head? with
  | none => .ok (st, none)
  | some m =>
    match m.timestamp with
    | none => .error "Invalid time value"
    | some secs =>
      let content := extractContent m
      let row : MessageRow :=
        { message_id := m.id
          phone_number := m.sender
          from_number := m.sender
          to_number := payload.phoneNumberId.getD ""
          body := some content.1
          direction := "inbound"
          status := some "received"
          timestamp := secs * 1000
          message_type := m.ty
          media_url := content.2.1
          media_mime_type := content.2.2.1
          caption := content.2.2.2
          is_ai_response := false }
      let ins := dbInsertMessage st.messages row
      .ok ({ st with messages := ins.1 }, ins.2)

structure WebhookResponse where
  status : Nat
  /-- The `status` field of the JSON body: "ok" or "error". -/
  body : String
deriving Repr, DecidableEq

/-- Input to the event-delivery handler: the result of
`request.json()` (which throws on a malformed body), plus whether the
error-logging insert inside the catch block itself throws. -/
structure WebhookPostRequest where
  jsonBody : Except String WebhookPayload
  errorLogFails : Bool

/-- The catch block of `POST /api/webhook`: try to append an error row to
`webhook_logs` (swallowing a failure of that insert), then still answer
200 with status "error" so the provider does not retry. -/
def webhookCatch (st : DBState) (msg : String) (logFails : Bool) :
    DBState × WebhookResponse :=
  let st1 :=
    if logFails then st
    else { st with webhook_logs := st.webhook_logs ++
      [{ event_type := "error", payload := .errObj msg,
         processed := false, error := some msg }] }
  (st1, { status := 200, body := "error" })

/-- Handler of `POST /api/webhook` (event delivery). -/
def webhookPost (st : DBState) (req : WebhookPostRequest) :
    DBState × WebhookResponse :=
  match req.jsonBody with
  | .error e => webhookCatch st e req.errorLogFails
  | .ok p =>
    let st1 := { st with webhook_logs := st.webhook_logs ++
      [{ event_type := jsOr p.field "unknown", payload := .body p,
         processed := false, error := none }] }
    if !p.messages.isEmpty then
      match storeInboundMessage st1 p with
      | .error e => webhookCatch st1 e req.errorLogFails
      | .ok (st2, stored) =>
        let st3 :=
          if stored.isSome then
            { st2 with webhook_logs := st2.webhook_logs ++
              [{ event_type := "message_received", payload := .body p,
                 processed := true, error := none }] }
          else st2
        (st3, { status := 200, body := "ok" })
    else if !p.statuses.isEmpty then
      let tbl := p.statuses.foldl
        (fun t s => updateStatus t s.1 s.2) st1.messages
      let st2 := { st1 with
        messages := tbl
        webhook_logs := st1.webhook_logs ++
          [{ event_type := "status_update", payload := .body p,
             processed := true, error := none }] }
      (st2, { status := 200, body := "ok" })
    else
      (st1, { status := 200, body := "ok" })

/-! ## Human-activity gate: `app/api/check-human/route.ts` `GET` -/

/-- The row filter of the supabase query: phone matches, outbound,
non-AI, timestamp within the trailing two-hour window (`gte`, i.e.
inclusive). -/
def qualifies (phone : String) (now : Int) (r : MessageRow) : Bool :=
  r.phone_number == phone && r.direction == "outbound" &&
    r.is_ai_response == false && decide (now - 2 * 60 * 60 * 1000 ≤ r.timestamp)

/-- Fold step selecting the row with the greater timestamp (keeping the
earlier row on ties). -/
def pickMax (acc : Option MessageRow) (r : MessageRow) : Option MessageRow :=
  match acc with
  | none => some r
  | some a => if r.timestamp > a.timestamp then some r else some a

/-- First element of `ORDER BY timestamp DESC LIMIT 1`: the row with the
greatest timestamp among those passing the filter (earliest such row on
ties), or `none` when no row qualifies. -/
def latestQualifying (tbl : List MessageRow) (phone : String) (now : Int) :
    Option MessageRow :=
  (tbl.filter (qualifies phone now)).foldl pickMax none

/-- JS `Math.round`: for these (never negative) inputs it is
`floor(x + 1/2)`. -/
def jsRound (q : ℚ) : ℤ := ⌊q + 1 / 2⌋

/-- Model of `Math.round(hoursRemaining * 100) / 100`: round to two decimals. -/
def round2 (q : ℚ) : ℚ := (jsRound (q * 100) : ℚ) / 100

structure CheckHumanResult where
  status : Nat
  humanActive : Bool
  lastHumanResponseTime : Option Int
  /-- The reported `hoursRemaining`, already rounded to two decimals. -/
  hoursRemaining : ℚ
  errorMsg : Option String
deriving Repr, DecidableEq

/-- Main body of the check-human handler, after the try/catch.
`phoneParam` is `searchParams.get("phone")`; `dbError` tells whether the
supabase query reported an error. -/
def checkHuman (tbl : List MessageRow) (phoneParam : Option String)
    (now : Int) (dbError : Bool) : CheckHumanResult :=
  if !(jsStrTruthy phoneParam) then
    { status := 400, humanActive := false, lastHumanResponseTime := none,
      hoursRemaining := 0,
      errorMsg := some "Phone number is required as query parameter" }
  else
    let clean := cleanPhone (phoneParam.getD "")
    if dbError then
      { status := 500, humanActive := false, lastHumanResponseTime := none,
        hoursRemaining := 0,
        errorMsg := some "Failed to check conversation status" }
    else
      match latestQualifying tbl clean now with
      | none =>
        { status := 200, humanActive := false,
          lastHumanResponseTime := none, hoursRemaining := round2 0,
          errorMsg := none }
      | some m =>
        let hoursElapsed : ℚ := ((now - m.timestamp : ℤ) : ℚ) / (1000 * 60 * 60)
        let hoursRemaining : ℚ := max 0 (2 - hoursElapsed)
        { status := 200, humanActive := decide (0 < hoursRemaining),
          lastHumanResponseTime := some m.timestamp,
          hoursRemaining := round2 hoursRemaining, errorMsg := none }

/-- The whole `GET /api/check-human` handler: `thrown` models an
exception escaping the body into the outer catch block. -/
def checkHumanRoute (tbl : List MessageRow) (phoneParam : Option String)
    (now : Int) (dbError : Bool) (thrown : Option String) :
    CheckHumanResult :=
  match thrown with
  | some _ =>
    { status := 500, humanActive := false, lastHumanResponseTime := none,
      hoursRemaining := 0,
      errorMsg := some "Failed to check conversation status" }
  | none => checkHuman tbl phoneParam now dbError

/-! ## Read path: `app/api/messages/fetch/route.ts` and the grouping in
`app/page.tsx` -/

/-- The wire shape of `GET /api/messages/fetch` items. -/
structure FormattedMessage where
  sid : String
  /-- The `from` field of the formatted message. -/
  fromField : String
  /-- The `to` field of the formatted message. -/
  toField : String
  body : String
  date_sent : Int
  status : String
  direction : String
  message_type : String
  is_ai_response : Bool
deriving Repr, DecidableEq

/-- The per-row transform of the fetch route: note that for a
non-inbound row it sets `from := to_number` and `to := from_number`. -/
def formatMessage (msg : MessageRow) : FormattedMessage :=
  { sid := msg.message_id
    fromField := if msg.direction == "inbound" then msg.from_number
                 else msg.to_number
    toField := if msg.direction == "inbound" then msg.to_number
               else msg.from_number
    body := jsOr msg.body ""
    date_sent := msg.timestamp
    status := jsOr msg.status "delivered"
    direction := if msg.direction == "inbound" then "inbound"
                 else "outbound-api"
    message_type := msg.message_type
    is_ai_response := msg.is_ai_response }

/-- Handler of `GET /api/messages/fetch`: format every stored row. -/
def fetchRouteGet (tbl : List MessageRow) : List FormattedMessage :=
  tbl.map formatMessage

/-- The group key computed per message by `fetchMessages` in
`app/page.tsx`: `from` (with any `whatsapp:` prefix removed) for inbound
messages, `to` for the rest. -/
def conversationKey (m : FormattedMessage) : String :=
  if m.direction == "inbound" then replaceFirst m.fromField "whatsapp:"
  else replaceFirst m.toField "whatsapp:"

/-! ## Theorems -/

/-! ### Helper lemmas -/

/-- Folding `pickMax` from a known row yields a row of the list (or the
start row) that dominates every timestamp seen. -/
lemma foldl_pickMax_spec (l : List MessageRow) :
    ∀ a : MessageRow, ∃ b, l.foldl pickMax (some a) = some b ∧
      (b = a ∨ b ∈ l) ∧ a.timestamp ≤ b.timestamp ∧
      ∀ x ∈ l, x.timestamp ≤ b.timestamp := by
  induction l with
  | nil =>
    intro a
    exact ⟨a, rfl, Or.inl rfl, le_refl _, by simp⟩
  | cons c cs ih =>
    intro a
    by_cases h : a.timestamp < c.timestamp
    · obtain ⟨b, hb, hor, hle, hall⟩ := ih c
      refine ⟨b, ?_, ?_, le_trans h.le hle, ?_⟩
      · simpa [pickMax, gt_iff_lt, h] using hb
      · rcases hor with rfl | hm
        · exact Or.inr (List.mem_cons_self _ _)
        · exact Or.inr (List.mem_cons_of_mem _ hm)
      · intro x hx
        rcases List.mem_cons.mp hx with rfl | hm
        · exact hle
        · exact hall x hm
    · obtain ⟨b, hb, hor, hle, hall⟩ := ih a
      refine ⟨b, ?_, ?_, hle, ?_⟩
      · simpa [pickMax, gt_iff_lt, h] using hb
      · rcases hor with rfl | hm
        · exact Or.inl rfl
        · exact Or.inr (List.mem_cons_of_mem _ hm)
      · intro x hx
        rcases List.mem_cons.mp hx with rfl | hm
        · exact le_trans (not_lt.mp h) hle
        · exact hall x hm

/-- When no row qualifies, the limit-1 query returns nothing. -/
lemma latestQualifying_eq_none (tbl : List MessageRow) (p : String)
    (now : Int) (hq : ∀ r ∈ tbl, qualifies p now r = false) :
    latestQualifying tbl p now = none := by
  unfold latestQualifying
  have : tbl.filter (qualifies p now) = [] := by
    rw [List.filter_eq_nil_iff]
    intro a ha
    simp [hq a ha]
  rw [this]
  rfl

/-- When some row qualifies, the limit-1 query returns a qualifying row
whose timestamp dominates every qualifying row. -/
lemma latestQualifying_spec_some (tbl : List MessageRow) (p : String)
    (now : Int) (m : MessageRow) (hm : m ∈ tbl)
    (hq : qualifies p now m = true) :
    ∃ b, latestQualifying tbl p now = some b ∧ b ∈ tbl ∧
      qualifies p now b = true ∧
      ∀ r ∈ tbl, qualifies p now r = true → r.timestamp ≤ b.timestamp := by
  unfold latestQualifying
  have hmem : m ∈ tbl.filter (qualifies p now) := List.mem_filter.mpr ⟨hm, hq⟩
  cases hf : tbl.filter (qualifies p now) with
  | nil => rw [hf] at hmem; exact absurd hmem (List.not_mem_nil m)
  | cons c cs =>
    obtain ⟨b, hb, hor, hle, hall⟩ := foldl_pickMax_spec cs c
    have hbmem : b ∈ tbl.filter (qualifies p now) := by
      rw [hf]
      rcases hor with rfl | hm'
      · exact List.mem_cons_self _ _
      · exact List.mem_cons_of_mem _ hm'
    obtain ⟨hbt, hbq⟩ := List.mem_filter.mp hbmem
    refine ⟨b, ?_, hbt, hbq, ?_⟩
    · simpa [pickMax] using hb
    · intro r hr hrq
      have : r ∈ tbl.filter (qualifies p now) := List.mem_filter.mpr ⟨hr, hrq⟩
      rw [hf] at this
      rcases List.mem_cons.mp this with rfl | hm'
      · exact hle
      · exact hall r hm'

/-- A row returned by the limit-1 query belongs to the table and
qualifies. -/
lemma latestQualifying_sound (tbl : List MessageRow) (p : String)
    (now : Int) (b : MessageRow)
    (h : latestQualifying tbl p now = some b) :
    b ∈ tbl ∧ qualifies p now b = true := by
  unfold latestQualifying at h
  cases hf : tbl.filter (qualifies p now) with
  | nil => rw [hf] at h; simp at h
  | cons c cs =>
    rw [hf] at h
    obtain ⟨b', hb', hor, _, _⟩ := foldl_pickMax_spec cs c
    have h' : List.foldl pickMax (some c) cs = some b := by
      simpa [pickMax] using h
    have hbb : b' = b := Option.some_inj.mp (hb'.symm.trans h')
    subst hbb
    have hbmem : b' ∈ tbl.filter (qualifies p now) := by
      rw [hf]
      rcases hor with rfl | hm'
      · exact List.mem_cons_self _ _
      · exact List.mem_cons_of_mem _ hm'
    exact List.mem_filter.mp hbmem

/-- Rounding to two decimals is monotone. -/
lemma round2_mono {q r : ℚ} (h : q ≤ r) : round2 q ≤ round2 r := by
  unfold round2 jsRound
  have hf : ⌊q * 100 + 1 / 2⌋ ≤ ⌊r * 100 + 1 / 2⌋ :=
    Int.floor_le_floor (by linarith)
  have hc : ((⌊q * 100 + 1 / 2⌋ : ℤ) : ℚ) ≤ ((⌊r * 100 + 1 / 2⌋ : ℤ) : ℚ) := by
    exact_mod_cast hf
  linarith

/-- Rounding to two decimals preserves nonnegativity. -/
lemma round2_nonneg {q : ℚ} (h : 0 ≤ q) : 0 ≤ round2 q := by
  unfold round2 jsRound
  have hf : (0 : ℤ) ≤ ⌊q * 100 + 1 / 2⌋ := Int.floor_nonneg.mpr (by linarith)
  have hc : (0 : ℚ) ≤ ((⌊q * 100 + 1 / 2⌋ : ℤ) : ℚ) := by exact_mod_cast hf
  linarith

/-- Zero rounds to zero. -/
lemma round2_zero : round2 0 = 0 := by
  unfold round2 jsRound
  norm_num [Int.floor_eq_iff]

/-- A row inside the two-hour window at a later time is inside the
window at any earlier time. -/
lemma qualifies_mono {p : String} {t1 t2 : Int} (h : t1 ≤ t2)
    {r : MessageRow} (hq : qualifies p t2 r = true) :
    qualifies p t1 r = true := by
  unfold qualifies at hq ⊢
  simp only [Bool.and_eq_true, decide_eq_true_eq] at hq ⊢
  exact ⟨⟨⟨hq.1.1.1, hq.1.1.2⟩, hq.1.2⟩, by linarith [hq.2]⟩

/-- Appending a row bumps the count of its own `message_id` by one. -/
lemma countId_append_row (tbl : List MessageRow) (row : MessageRow) :
    countId (tbl ++ [row]) row.message_id =
      countId tbl row.message_id + 1 := by
  simp [countId, List.filter_append]

/-- The duplicate check of the insert succeeds exactly when the id is
already present. -/
lemma any_id_iff_countId_pos (tbl : List MessageRow) (mid : String) :
    tbl.any (fun r => r.message_id == mid) = true ↔
      0 < countId tbl mid := by
  rw [countId, ← List.countP_eq_length_filter, List.countP_pos_iff,
    List.any_eq_true]

/-- Inserting under the unique constraint leaves exactly one row with
the inserted id when none was present, and changes nothing otherwise. -/
lemma dbInsertMessage_countId (tbl : List MessageRow) (row : MessageRow) :
    countId (dbInsertMessage tbl row).1 row.message_id =
      if countId tbl row.message_id = 0 then 1
      else countId tbl row.message_id := by
  unfold dbInsertMessage
  by_cases h : tbl.any (fun r => r.message_id == row.message_id) = true
  · have hpos := (any_id_iff_countId_pos tbl row.message_id).mp h
    rw [if_pos h]
    simp [Nat.pos_iff_ne_zero.mp hpos]
  · have hzero : countId tbl row.message_id = 0 := by
      by_contra hz
      exact h ((any_id_iff_countId_pos tbl row.message_id).mpr
        (Nat.pos_of_ne_zero hz))
    rw [if_neg h]
    simp [countId_append_row, hzero]

/-- One webhook delivery of an inbound message with id `mid` makes the
count of `mid` one when it was zero, and leaves it unchanged
otherwise. -/
lemma webhookPost_countId (st : DBState) (d : WebhookPostRequest)
    (mid : String) (p : WebhookPayload) (m : WebhookMessage)
    (hj : d.jsonBody = .ok p) (hh : p.messages.head? = some m)
    (hid : m.id = mid) (hts : m.timestamp.isSome = true) :
    countId (webhookPost st d).1.messages mid =
      if countId st.messages mid = 0 then 1
      else countId st.messages mid := by
  obtain ⟨secs, hsecs⟩ := Option.isSome_iff_exists.mp hts
  have hnonempty : p.messages.isEmpty = false := by
    cases hms : p.messages with
    | nil => rw [hms] at hh; exact absurd hh (by simp)
    | cons a l => rfl
  simp only [webhookPost, hj, hnonempty, Bool.not_false, if_true,
    storeInboundMessage, hh, hsecs]
  set row : MessageRow :=
    { message_id := m.id
      phone_number := m.sender
      from_number := m.sender
      to_number := p.phoneNumberId.getD ""
      body := some (extractContent m).1
      direction := "inbound"
      status := some "received"
      timestamp := secs * 1000
      message_type := m.ty
      media_url := (extractContent m).2.1
      media_mime_type := (extractContent m).2.2.1
      caption := (extractContent m).2.2.2
      is_ai_response := false } with hrow
  subst hid
  split
  · exact dbInsertMessage_countId st.messages row
  · exact dbInsertMessage_countId st.messages row

/-- Sequential processing of a batch of webhook deliveries. -/
def processDeliveries (ds : List WebhookPostRequest) (st : DBState) :
    DBState :=
  ds.foldl (fun s d => (webhookPost s d).1) st

/-- A delivery of the inbound-message event with id `mid`: a well-formed
payload whose first message entry carries that id and a valid
timestamp. -/
def deliversId (mid : String) (d : WebhookPostRequest) : Prop :=
  ∃ p m, d.jsonBody = .ok p ∧ p.messages.head? = some m ∧
    m.id = mid ∧ m.timestamp.isSome = true

/-- Once the store holds exactly one row with `mid`, further
redeliveries of `mid` keep it at exactly one. -/
lemma processDeliveries_preserves_one (mid : String)
    (ds : List WebhookPostRequest) :
    ∀ st : DBState, countId st.messages mid = 1 →
    (∀ d ∈ ds, deliversId mid d) →
    countId (processDeliveries ds st).messages mid = 1 := by
  induction ds with
  | nil => intro st h _; exact h
  | cons d rest ih =>
    intro st h hall
    obtain ⟨p, m, hj, hh, hid, hts⟩ := hall d (List.mem_cons_self _ _)
    have hstep := webhookPost_countId st d mid p m hj hh hid hts
    rw [h] at hstep
    simp only [if_neg (by norm_num : ¬ (1 : Nat) = 0)] at hstep
    have hfold : processDeliveries (d :: rest) st =
        processDeliveries rest (webhookPost st d).1 := rfl
    rw [hfold]
    exact ih (webhookPost st d).1 hstep
      (fun d' hd' => hall d' (List.mem_cons_of_mem _ hd'))

/-! ### The claims -/

def c1Config : SendConfig := ⟨some "111222333", some "tok"⟩

def c1Provider : ProviderResponse := ⟨true, none, some "wamid.out1"⟩

def c1Request : SendRequestBody :=
  ⟨some "+15551234567", some "hello", none⟩

/-- Claim C1 (refuted; evaluation at the failing input): an outbound
message sent to counterparty 15551234567 from the business phone-number
id 111222333 is stored with `to_number = 15551234567`, yet the read
path groups it under the key 111222333 — the business id, not the
counterparty — because the fetch route swaps `from`/`to` for outbound
rows while the dashboard still groups non-inbound messages by the `to`
field. -/
theorem outboundGroupedUnderBusinessId :
    ((sendRoutePost c1Config c1Provider 0 ⟨[], []⟩
        (.ok c1Request)).1.messages.map (fun r => r.to_number))
      = ["15551234567"] ∧
    ((fetchRouteGet (sendRoutePost c1Config c1Provider 0 ⟨[], []⟩
        (.ok c1Request)).1.messages).map conversationKey)
      = ["111222333"] ∧
    "111222333" ≠ "15551234567" := by
  refine ⟨rfl, rfl, by decide⟩

/-- Claim C2: a batch of webhook deliveries that all redeliver the same
inbound message id, processed against a store not yet containing that
id, leaves exactly one row with that id in the store. -/
theorem webhook_redelivery_single_row (mid : String)
    (ds : List WebhookPostRequest) (st : DBState)
    (h0 : countId st.messages mid = 0)
    (hne : ds ≠ [])
    (hall : ∀ d ∈ ds, deliversId mid d) :
    countId (processDeliveries ds st).messages mid = 1 := by
  cases ds with
  | nil => exact absurd rfl hne
  | cons d rest =>
    obtain ⟨p, m, hj, hh, hid, hts⟩ := hall d (List.mem_cons_self _ _)
    have hstep := webhookPost_countId st d mid p m hj hh hid hts
    rw [h0] at hstep
    simp only [if_pos rfl] at hstep
    have hfold : processDeliveries (d :: rest) st =
        processDeliveries rest (webhookPost st d).1 := rfl
    rw [hfold]
    exact processDeliveries_preserves_one mid rest (webhookPost st d).1
      hstep (fun d' hd' => hall d' (List.mem_cons_of_mem _ hd'))

def c2Msg : WebhookMessage :=
  ⟨"wamid.in1", "254768322488", some 1700000000, "text", some "hi",
    none, none, none⟩

def c2Payload : WebhookPayload :=
  ⟨[c2Msg], [], some "messages", some "111222333"⟩

def c2Delivery : WebhookPostRequest := ⟨.ok c2Payload, false⟩

/-- Witness for C2: delivering the same inbound message twice leaves
one row. -/
theorem webhook_redelivery_single_row_witness :
    countId (processDeliveries [c2Delivery, c2Delivery]
      ⟨[], []⟩).messages "wamid.in1" = 1 :=
  webhook_redelivery_single_row "wamid.in1" [c2Delivery, c2Delivery]
    ⟨[], []⟩ rfl (by simp)
    (by
      intro d hd
      rcases List.mem_cons.mp hd with rfl | hd'
      · exact ⟨c2Payload, c2Msg, rfl, rfl, rfl, rfl⟩
      · rcases List.mem_singleton.mp hd' with rfl
        exact ⟨c2Payload, c2Msg, rfl, rfl, rfl, rfl⟩)

/-- Claim C3: with a stored human outbound message for the queried
counterparty at time T (milliseconds) and no later qualifying message,
the gate at T + 1h reports active with exactly 1.0 hours remaining, the
gate at T + 3h reports inactive with 0 hours remaining and a null last
response time, and whenever no message qualifies at all the gate
reports inactive, 0 hours remaining and a null last response time. -/
theorem checkHuman_window_cases (tbl : List MessageRow) (phone : String)
    (T : Int) (m : MessageRow)
    (hphone : phone ≠ "")
    (hm : m ∈ tbl)
    (hp : m.phone_number = cleanPhone phone)
    (hdir : m.direction = "outbound")
    (hai : m.is_ai_response = false)
    (hts : m.timestamp = T)
    (hlatest : ∀ r ∈ tbl,
      qualifies (cleanPhone phone) (T + 3600000) r = true →
      r.timestamp ≤ T) :
    ((checkHuman tbl (some phone) (T + 3600000) false).humanActive = true ∧
      (checkHuman tbl (some phone) (T + 3600000) false).hoursRemaining
        = 1) ∧
    ((checkHuman tbl (some phone) (T + 3 * 3600000) false).humanActive
        = false ∧
      (checkHuman tbl (some phone) (T + 3 * 3600000) false).hoursRemaining
        = 0 ∧
      (checkHuman tbl (some phone)
        (T + 3 * 3600000) false).lastHumanResponseTime = none) ∧
    (∀ now, latestQualifying tbl (cleanPhone phone) now = none →
      (checkHuman tbl (some phone) now false).humanActive = false ∧
      (checkHuman tbl (some phone) now false).hoursRemaining = 0 ∧
      (checkHuman tbl (some phone) now false).lastHumanResponseTime
        = none) := by
  have htruthy : jsStrTruthy (some phone) = true := by
    simp [jsStrTruthy, hphone]
  have hq1 : qualifies (cleanPhone phone) (T + 3600000) m = true := by
    unfold qualifies
    simp only [Bool.and_eq_true, decide_eq_true_eq, beq_iff_eq]
    exact ⟨⟨⟨hp, hdir⟩, by simp [hai]⟩, by omega⟩
  refine ⟨?_, ?_, ?_⟩
  · obtain ⟨b, hb, hbt, hbq, hball⟩ :=
      latestQualifying_spec_some tbl (cleanPhone phone) (T + 3600000) m hm
        hq1
    have hbts : b.timestamp = T :=
      le_antisymm (hlatest b hbt hbq) (hts ▸ hball m hm hq1)
    simp only [checkHuman, htruthy, Bool.not_true, Bool.false_eq_true,
      if_false, Option.getD_some, hb]
    rw [hbts]
    constructor
    · have hone : ((T + 3600000 - T : ℤ) : ℚ) / (1000 * 60 * 60) = 1 := by
        push_cast
        norm_num
      rw [hone]
      norm_num
    · have hone : ((T + 3600000 - T : ℤ) : ℚ) / (1000 * 60 * 60) = 1 := by
        push_cast
        norm_num
      rw [hone]
      norm_num [round2, jsRound, Int.floor_eq_iff]
  · have hnone : latestQualifying tbl (cleanPhone phone)
        (T + 3 * 3600000) = none := by
      apply latestQualifying_eq_none
      intro r hr
      by_contra hq
      have hq' : qualifies (cleanPhone phone) (T + 3 * 3600000) r
          = true := by
        cases hqb : qualifies (cleanPhone phone) (T + 3 * 3600000) r
        · exact absurd hqb hq
        · rfl
      have hwin : T + 3 * 3600000 - 2 * 60 * 60 * 1000 ≤ r.timestamp := by
        have hconj := hq'
        unfold qualifies at hconj
        simp only [Bool.and_eq_true, decide_eq_true_eq] at hconj
        exact hconj.2
      have hq1' : qualifies (cleanPhone phone) (T + 3600000) r = true :=
        qualifies_mono (by omega) hq'
      have := hlatest r hr hq1'
      omega
    simp only [checkHuman, htruthy, Bool.not_true, Bool.false_eq_true,
      if_false, Option.getD_some, hnone]
    exact ⟨trivial, round2_zero, trivial⟩
  · intro now hnone
    simp only [checkHuman, htruthy, Bool.not_true, Bool.false_eq_true,
      if_false, Option.getD_some, hnone]
    exact ⟨trivial, round2_zero, trivial⟩

def c3Row : MessageRow :=
  ⟨"m1", "254768322488", "111222333", "254768322488", some "hi",
    "outbound", some "sent", 0, "text", none, none, none, false⟩

/-- Witness for C3: a human outbound message at time 0 makes the gate
active one hour later and inactive three hours later. -/
theorem checkHuman_window_cases_witness :
    (checkHuman [c3Row] (some "254768322488") (0 + 3600000)
        false).humanActive = true ∧
    (checkHuman [c3Row] (some "254768322488") (0 + 3 * 3600000)
        false).humanActive = false :=
  ⟨(checkHuman_window_cases [c3Row] "254768322488" 0 c3Row (by decide)
      (by simp) (by decide) rfl rfl rfl
      (by
        intro r hr hq
        rcases List.mem_singleton.mp hr with rfl
        rfl)).1.1,
   (checkHuman_window_cases [c3Row] "254768322488" 0 c3Row (by decide)
      (by simp) (by decide) rfl rfl rfl
      (by
        intro r hr hq
        rcases List.mem_singleton.mp hr with rfl
        rfl)).2.1.1⟩

def c4Row : MessageRow :=
  ⟨"m1", "254768322488", "111222333", "254768322488", some "hi",
    "outbound", some "sent", 0, "text", none, none, none, false⟩

/-- Claim C4 as stated is false: with a human outbound message at time 0
and the same store, a call at time 0 and a call one millisecond later
both report 2.0 hours remaining after rounding — a strictly later call
whose reported value neither strictly decreased nor is 0. -/
theorem checkHuman_strict_decrease_fails :
    (0 : ℤ) < 1 ∧
    ¬ (((checkHuman [c4Row] (some "254768322488") 1 false).hoursRemaining <
          (checkHuman [c4Row] (some "254768322488") 0 false).hoursRemaining) ∨
        (checkHuman [c4Row] (some "254768322488") 1 false).hoursRemaining
          = 0) := by
  have e1 : (checkHuman [c4Row] (some "254768322488") 1 false).hoursRemaining
      = 2 := by
    simp [checkHuman, latestQualifying, qualifies, cleanPhone, isJsSpace,
      jsStrTruthy, pickMax, round2, jsRound, c4Row]
    norm_num [Int.floor_eq_iff]
  have e0 : (checkHuman [c4Row] (some "254768322488") 0 false).hoursRemaining
      = 2 := by
    simp [checkHuman, latestQualifying, qualifies, cleanPhone, isJsSpace,
      jsStrTruthy, pickMax, round2, jsRound, c4Row]
    norm_num [Int.floor_eq_iff]
  refine ⟨by norm_num, ?_⟩
  rw [e1, e0]
  norm_num

/-- Claim C4 (amended): with a fixed store, the reported
`hoursRemaining` never increases as the query time grows; it need not
strictly decrease between two nearby calls because the reported value
is rounded to two decimals. -/
theorem checkHuman_hoursRemaining_antitone (tbl : List MessageRow)
    (phoneParam : Option String) (dbError : Bool) (t1 t2 : Int)
    (h : t1 ≤ t2) :
    (checkHuman tbl phoneParam t2 dbError).hoursRemaining ≤
      (checkHuman tbl phoneParam t1 dbError).hoursRemaining := by
  by_cases hp : jsStrTruthy phoneParam = true
  · cases dbError with
    | true => simp [checkHuman, hp]
    | false =>
      simp only [checkHuman, hp, Bool.not_true, Bool.false_eq_true,
        if_false]
      cases h2 : latestQualifying tbl (cleanPhone (phoneParam.getD ""))
          t2 with
      | none =>
        cases h1 : latestQualifying tbl (cleanPhone (phoneParam.getD ""))
            t1 with
        | none => simp
        | some m1 =>
          dsimp only
          rw [round2_zero]
          exact round2_nonneg (le_max_left 0 _)
      | some m2 =>
        obtain ⟨hm2t, hm2q⟩ := latestQualifying_sound _ _ _ _ h2
        have hq1 : qualifies (cleanPhone (phoneParam.getD "")) t1 m2
            = true := qualifies_mono h hm2q
        obtain ⟨b1, hb1, hb1t, hb1q, hball⟩ :=
          latestQualifying_spec_some tbl _ t1 m2 hm2t hq1
        rw [hb1]
        dsimp only
        apply round2_mono
        have hts : m2.timestamp ≤ b1.timestamp := hball m2 hm2t hq1
        have hcast : ((t1 - b1.timestamp : ℤ) : ℚ) ≤
            ((t2 - m2.timestamp : ℤ) : ℚ) := by
          exact_mod_cast sub_le_sub h hts
        refine max_le_max (le_refl 0) ?_
        push_cast at hcast ⊢
        linarith
  · simp [checkHuman, Bool.eq_false_iff.mpr hp]

/-- Witness for the amended C4: one millisecond later the reported
hours remaining have not increased. -/
theorem checkHuman_hoursRemaining_antitone_witness :
    (checkHuman [c4Row] (some "254768322488") 1 false).hoursRemaining ≤
      (checkHuman [c4Row] (some "254768322488") 0 false).hoursRemaining :=
  checkHuman_hoursRemaining_antitone [c4Row] (some "254768322488") false 0 1
    (by norm_num)

/-- Claim C5: the event-delivery handler answers HTTP 200 with body
status "ok" or "error" on every input — including a malformed request
body, a storage exception, and failure of the error logging itself — so
a failure is never signalled back to the provider. -/
theorem webhookPost_always_200 (st : DBState) (req : WebhookPostRequest) :
    (webhookPost st req).2.status = 200 ∧
    ((webhookPost st req).2.body = "ok" ∨
      (webhookPost st req).2.body = "error") := by
  unfold webhookPost webhookCatch
  rcases req.jsonBody with e | p
  · simp
  · dsimp only
    split
    · split <;> simp
    · split <;> simp

/-- Claim C6: a send request whose `body` field is the empty string (or
whose `to` field is) is rejected with status 400 and a descriptive
error message, and the store is unchanged. -/
theorem sendRoutePost_rejects_empty (cfg : SendConfig)
    (resp : ProviderResponse) (now : Int) (st : DBState)
    (b : SendRequestBody)
    (h : b.bodyField = some "" ∨ b.toField = some "") :
    (sendRoutePost cfg resp now st (.ok b)).1 = st ∧
    (sendRoutePost cfg resp now st (.ok b)).2.status = 400 ∧
    (sendRoutePost cfg resp now st (.ok b)).2.error =
      some "Missing required fields: to, body" := by
  have hguard : (!(jsStrTruthy b.toField) || !(jsStrTruthy b.bodyField))
      = true := by
    rcases h with h | h <;> simp [h, jsStrTruthy]
  simp [sendRoutePost, hguard]

/-- Witness for C6: an empty body is rejected with 400. -/
theorem sendRoutePost_rejects_empty_witness :
    (sendRoutePost ⟨some "111222333", some "tok"⟩ ⟨true, none, none⟩ 0
      ⟨[], []⟩ (.ok ⟨some "254768322488", some "", none⟩)).2.status
      = 400 :=
  (sendRoutePost_rejects_empty ⟨some "111222333", some "tok"⟩
    ⟨true, none, none⟩ 0 ⟨[], []⟩ ⟨some "254768322488", some "", none⟩
    (Or.inl rfl)).2.1

/-- Claim C7: a non-success provider response makes
`sendWhatsAppMessage` fail with the provider-supplied error message
(when one is present), leaves the store unchanged, and the send route
surfaces exactly that message with error status 500. -/
theorem sendRoutePost_provider_error (cfg : SendConfig)
    (resp : ProviderResponse) (now : Int) (st : DBState)
    (b : SendRequestBody) (m : String)
    (hpid : jsStrTruthy cfg.phoneNumberId = true)
    (htok : jsStrTruthy cfg.accessToken = true)
    (hto : jsStrTruthy b.toField = true)
    (hbody : jsStrTruthy b.bodyField = true)
    (hok : resp.ok = false)
    (hmsg : resp.errorMessage = some m) (hm : m ≠ "") :
    sendWhatsAppMessage cfg resp now st (b.toField.getD "")
        (b.bodyField.getD "") (jsTruthyB b.isAiResponse) = .error m ∧
    (sendRoutePost cfg resp now st (.ok b)).1 = st ∧
    (sendRoutePost cfg resp now st (.ok b)).2.status = 500 ∧
    (sendRoutePost cfg resp now st (.ok b)).2.error = some m := by
  have hsend : sendWhatsAppMessage cfg resp now st (b.toField.getD "")
      (b.bodyField.getD "") (jsTruthyB b.isAiResponse) = .error m := by
    simp [sendWhatsAppMessage, hpid, htok, hok, hmsg, jsOr, hm]
  exact ⟨hsend, by simp [sendRoutePost, hto, hbody, hsend]⟩

/-- Witness for C7: a concrete failed send surfaces the provider
message. -/
theorem sendRoutePost_provider_error_witness :
    (sendRoutePost ⟨some "111222333", some "tok"⟩
      ⟨false, some "Invalid recipient", none⟩ 0 ⟨[], []⟩
      (.ok ⟨some "254768322488", some "hello", none⟩)).2.error
      = some "Invalid recipient" :=
  (sendRoutePost_provider_error ⟨some "111222333", some "tok"⟩
    ⟨false, some "Invalid recipient", none⟩ 0 ⟨[], []⟩
    ⟨some "254768322488", some "hello", none⟩ "Invalid recipient"
    (by decide) (by decide) (by decide) (by decide) rfl rfl
    (by decide)).2.2.2

/-- Claim C8: the verification handler echoes the challenge with status
200 exactly when the mode parameter is "subscribe" and the token equals
the configured verify token; in every other case it answers 403; and it
never touches the store. -/
theorem webhookGet_verification_spec (cfgToken : Option String)
    (q : VerifyQuery) (st : DBState) :
    (webhookGet cfgToken q st).1 = st ∧
    (((webhookGet cfgToken q st).2.status = 200 ∧
        (webhookGet cfgToken q st).2.body = q.challenge) ↔
      (q.mode = some "subscribe" ∧
        ∃ t, q.token = some t ∧ cfgToken = some t)) ∧
    (¬ (q.mode = some "subscribe" ∧
        ∃ t, q.token = some t ∧ cfgToken = some t) →
      (webhookGet cfgToken q st).2.status = 403) := by
  have hcond : (q.mode == some "subscribe" && jsStrictEq q.token cfgToken)
      = true ↔
      (q.mode = some "subscribe" ∧
        ∃ t, q.token = some t ∧ cfgToken = some t) := by
    cases htok : q.token <;> cases hcfg : cfgToken
    all_goals simp [jsStrictEq]
    all_goals aesop
  cases hc : (q.mode == some "subscribe" && jsStrictEq q.token cfgToken) with
  | true =>
    obtain ⟨h1, h2⟩ := Bool.and_eq_true _ _ |>.mp hc
    refine ⟨by simp [webhookGet, h1, h2], ?_, ?_⟩
    · simp only [webhookGet, h1, h2]
      simp [hcond.mp hc]
    · intro hn; exact absurd (hcond.mp hc) hn
  | false =>
    refine ⟨by simp [webhookGet, hc], ?_, ?_⟩
    · constructor
      · intro hx
        exact absurd hx.1 (by simp [webhookGet, hc])
      · intro hx
        exact absurd (hcond.mpr hx) (by simp [hc])
    · intro _; simp [webhookGet, hc]

/-- Witness for C8: a request with the wrong mode gets 403. -/
theorem webhookGet_verification_spec_witness :
    (webhookGet (some "tok") ⟨some "unsubscribe", some "tok", some "123"⟩
      ⟨[], []⟩).2.status = 403 :=
  (webhookGet_verification_spec (some "tok")
      ⟨some "unsubscribe", some "tok", some "123"⟩ ⟨[], []⟩).2.2
    (by rintro ⟨hmode, -⟩; exact absurd hmode (by decide))

/-- Claim C9: every error path of the check-human route — a store error
or a thrown exception — reports `humanActive = false`, so an error
never reports an active human window. -/
theorem checkHumanRoute_fails_closed (tbl : List MessageRow)
    (phoneParam : Option String) (now : Int) (dbError : Bool)
    (thrown : Option String)
    (h : dbError = true ∨ thrown ≠ none) :
    (checkHumanRoute tbl phoneParam now dbError thrown).humanActive
      = false := by
  cases thrown with
  | some e => simp [checkHumanRoute]
  | none =>
    have hdb : dbError = true := by
      rcases h with h | h
      · exact h
      · exact absurd rfl h
    subst hdb
    by_cases hp : jsStrTruthy phoneParam = true
    · simp [checkHumanRoute, checkHuman, hp]
    · simp [checkHumanRoute, checkHuman, Bool.eq_false_iff.mpr hp]

/-- Witness for C9: a store error on a well-formed request still
reports no active human. -/
theorem checkHumanRoute_fails_closed_witness :
    (checkHumanRoute [] (some "254768322488") 0 true none).humanActive
      = false :=
  checkHumanRoute_fails_closed [] (some "254768322488") 0 true none
    (Or.inl rfl)

/-- Claim C10: on a successful send whose `isAiResponse` field is
omitted or falsy, the route answers 200 and every row it adds to the
store carries `is_ai_response = false` (the send is recorded as
human-authored). -/
theorem sendRoutePost_default_human (cfg : SendConfig)
    (resp : ProviderResponse) (now : Int) (st : DBState)
    (b : SendRequestBody)
    (hpid : jsStrTruthy cfg.phoneNumberId = true)
    (htok : jsStrTruthy cfg.accessToken = true)
    (hto : jsStrTruthy b.toField = true)
    (hbody : jsStrTruthy b.bodyField = true)
    (hok : resp.ok = true)
    (hai : jsTruthyB b.isAiResponse = false) :
    (sendRoutePost cfg resp now st (.ok b)).2.status = 200 ∧
    ∀ r ∈ (sendRoutePost cfg resp now st (.ok b)).1.messages,
      r ∈ st.messages ∨ r.is_ai_response = false := by
  simp only [sendRoutePost, hto, hbody, Bool.not_true, Bool.or_self,
    Bool.false_eq_true, if_false]
  simp only [sendWhatsAppMessage]
  simp only [hpid, htok, hok, Bool.not_true, Bool.or_self,
    Bool.not_false, Bool.false_eq_true, if_false]
  unfold dbInsertMessage
  split
  · exact ⟨trivial, fun r hr => Or.inl hr⟩
  · refine ⟨trivial, fun r hr => ?_⟩
    rcases List.mem_append.mp hr with hr | hr
    · exact Or.inl hr
    · rcases List.mem_singleton.mp hr with rfl
      exact Or.inr hai

/-- Witness for C10: a send without `isAiResponse` succeeds with 200. -/
theorem sendRoutePost_default_human_witness :
    (sendRoutePost ⟨some "111222333", some "tok"⟩
      ⟨true, none, some "wamid.1"⟩ 0 ⟨[], []⟩
      (.ok ⟨some "254768322488", some "hello", none⟩)).2.status = 200 :=
  (sendRoutePost_default_human ⟨some "111222333", some "tok"⟩
    ⟨true, none, some "wamid.1"⟩ 0 ⟨[], []⟩
    ⟨some "254768322488", some "hello", none⟩
    (by decide) (by decide) (by decide) (by decide) rfl rfl).1

end WADash
